import Mathlib

set_option maxRecDepth 4000

/-!
Shallow embedding of `scripts/clip2_process.py` (repository james-see/dream-ai).

The script is a single-purpose CLI: it optionally imports an inference
library (`transformers`, on top of unconditional imports of `torch` and
`PIL`), and for one image path argument prints a JSON result document
`\x7b"caption": ..., "embedding": ...\x7d` on stdout.

External effects (importability of the three modules, the model/processor
loading, image decoding and the forward pass) are modelled by an
environment `PyEnv`: the field `infer` is the oracle standing for the whole
`CLIPModel.from_pretrained / CLIPProcessor.from_pretrained / Image.open /
processor / get_image_features` sequence inside the `try` block.  It takes
the checkpoint name and the image path and returns either the raw feature
vector or the message of the raised exception, together with the list of
file-system paths the sequence accessed (used for the frame property).
The arithmetic done by the script itself (L2 normalization, line 44 of the
source) is embedded directly; the scalar type is a generic field standing
for Python floats, instantiated at `ℝ` for the norm theorems.

`json.dumps` is modelled faithfully for the document shapes the script
produces (objects whose values are strings or arrays of numbers), with the
default `ensure_ascii=True` string escaping, since the single-line claim
hinges on the escaping of control characters.
-/

namespace Clip2

/-- Scalar-valued JSON atom: the values appearing in this script's JSON
objects are strings or arrays of numbers. -/
inductive JAtom (α : Type) where
  | str : String → JAtom α
  | numArr : List α → JAtom α
deriving DecidableEq

/-- A JSON object document: ordered field list, as `json.dumps` renders a dict. -/
structure JDoc (α : Type) where
  fields : List (String × JAtom α)
deriving DecidableEq

/-- The result dictionary returned by `process_image`: exactly the keys
`caption` (a string) and `embedding` (a list of floats). -/
structure Doc (α : Type) where
  caption : String
  embedding : List α
deriving DecidableEq

/-- Environment of external effects for one run of the script. -/
structure PyEnv (α : Type) where
  /-- `torch` is importable. -/
  hasTorch : Bool
  /-- `PIL` is importable. -/
  hasPIL : Bool
  /-- `transformers` is importable; the script's `HAS_CLIP` flag. -/
  hasTransformers : Bool
  /-- Oracle for the model-load / image-load / inference sequence of the
  `try` block: given the checkpoint name and the image path, either the raw
  feature vector `image_features[0]` or the raised exception's `str(e)`,
  plus the file-system paths accessed along the way. -/
  infer : String → String → Except String (List α) × List String

/-- One lowercase hexadecimal digit of a number, as used by `json.dumps`
in `\uXXXX` escapes. -/
def hexDigit (n : Nat) : Char := Nat.digitChar (n % 16)

/-- Four hex digits of a 16-bit code unit. -/
def hex4 (n : Nat) : List Char :=
  [hexDigit (n / 4096), hexDigit (n / 256), hexDigit (n / 16), hexDigit n]

/-- `json.dumps` escaping of one character with the default
`ensure_ascii=True`: shorthand escapes for the usual control characters,
backslash and quote; printable ASCII kept; everything else `\uXXXX`
(surrogate pairs above the BMP). -/
def escChar (c : Char) : List Char :=
  if c = '"' then ['\\', '"']
  else if c = '\\' then ['\\', '\\']
  else if c = '\n' then ['\\', 'n']
  else if c = '\r' then ['\\', 'r']
  else if c = '\t' then ['\\', 't']
  else if c = '\x08' then ['\\', 'b']
  else if c = '\x0c' then ['\\', 'f']
  else if 0x20 ≤ c.toNat ∧ c.toNat ≤ 0x7e then [c]
  else if c.toNat < 0x10000 then '\\' :: 'u' :: hex4 c.toNat
  else
    ('\\' :: 'u' :: hex4 (0xD800 + (c.toNat - 0x10000) / 0x400)) ++
      ('\\' :: 'u' :: hex4 (0xDC00 + (c.toNat - 0x10000) % 0x400))

/-- Escape a character sequence as the body of a JSON string literal. -/
def escapeList : List Char → List Char
  | [] => []
  | c :: cs => escChar c ++ escapeList cs

/-- A JSON string literal for `s`, quotes included. -/
def jstrL (s : String) : List Char := '"' :: (escapeList s.data ++ ['"'])

/-- Join chunks with a separator, as `json.dumps` joins items with a comma
and a space. -/
def joinSep (sep : List Char) : List (List Char) → List Char
  | [] => []
  | [x] => x
  | x :: y :: rest => x ++ sep ++ joinSep sep (y :: rest)

/-- Render one JSON value, given a renderer `numR` for the numbers
(standing for Python's `float.__repr__`). -/
def renderAtomL (numR : α → String) : JAtom α → List Char
  | .str s => jstrL s
  | .numArr xs => '[' :: (joinSep [',', ' '] (xs.map (fun x => (numR x).data)) ++ [']'])

/-- The characters `json.dumps` prints for an object document (default
separators: comma-space between items, colon-space inside an item). -/
def dumpsL (numR : α → String) (d : JDoc α) : List Char :=
  '\x7b' ::
    (joinSep [',', ' ']
      (d.fields.map (fun kv => jstrL kv.1 ++ [':', ' '] ++ renderAtomL numR kv.2)) ++
      ['\x7d'])

/-- `json.dumps` of an object document, as a string. -/
def dumps (numR : α → String) (d : JDoc α) : String := String.mk (dumpsL numR d)

/-- The JSON view of a `process_image` result dictionary. -/
def docToJson (d : Doc α) : JDoc α :=
  ⟨[("caption", JAtom.str d.caption), ("embedding", JAtom.numArr d.embedding)]⟩

/-- The usage-error document printed to stderr when the argument is missing. -/
def usageDoc (α : Type) : JDoc α :=
  ⟨[("error", JAtom.str "Usage: clip2_process.py <image_path>")]⟩

/-- The stderr warning printed at import time when `transformers` is missing. -/
def warningLine : String :=
  "Warning: transformers not installed. Install with: pip install transformers torch pillow"

/-- The fixed checkpoint name, `model_name` in the source. -/
def model_name : String := "openai/clip-vit-base-patch32"

/-- Sum of squares of a vector: the square of its Euclidean norm. -/
def sumSq [Field α] (v : List α) : α := (v.map (fun x => x * x)).sum

/-- Line 44 of the source: divide the feature vector by its Euclidean norm
(`sqrt` stands for the square-root map of the float type). -/
def normalizeVec [Field α] (sqrt : α → α) (v : List α) : List α :=
  v.map (fun x => x / sqrt (sumSq v))

/-- `process_image` (lines 19-59): the returned dictionary, paired with the
list of file-system paths accessed while producing it. -/
def process_image [Field α] (sqrt : α → α) (env : PyEnv α) (image_path : String) :
    Doc α × List String :=
  if env.hasTransformers = false then
    (⟨"Image: " ++ image_path, List.replicate 512 0⟩, [])
  else
    match env.infer model_name image_path with
    | (Except.error e, acc) =>
        (⟨"Error processing image: " ++ e, List.replicate 512 0⟩, acc)
    | (Except.ok v, acc) =>
        (⟨"Image from " ++ image_path, normalizeVec sqrt v⟩, acc)

/-- Observable outcome of one process run: exit code with the printed
stdout/stderr lines, or death by an unhandled exception. -/
inductive Outcome where
  | exited (code : Nat) (stdout : List String) (stderr : List String)
  | crashed (exn : String) (stdout : List String) (stderr : List String)
deriving DecidableEq

/-- The stdout lines of an outcome. -/
def Outcome.stdoutLines : Outcome → List String
  | .exited _ s _ => s
  | .crashed _ s _ => s

/-- Module-level imports (lines 7-17): `torch` and `PIL` are imported
unconditionally; only the `transformers` import is guarded, setting
`HAS_CLIP` and printing the warning to stderr when absent.  Returns the
stderr lines printed at import time, or the unhandled `ImportError`. -/
def moduleInit (env : PyEnv α) : Except String (List String) :=
  if env.hasTorch = false then Except.error "No module named torch"
  else if env.hasPIL = false then Except.error "No module named PIL"
  else if env.hasTransformers then Except.ok []
  else Except.ok [warningLine]

/-- The `__main__` block (lines 61-68) together with the module imports:
run the script on `argv` (with `argv[0]` the program name, as in
`sys.argv`). -/
def runScript [Field α] (sqrt : α → α) (numR : α → String) (env : PyEnv α)
    (argv : List String) : Outcome :=
  match moduleInit env with
  | Except.error e => Outcome.crashed e [] []
  | Except.ok warn =>
    match argv with
    | _ :: p :: _ =>
        Outcome.exited 0 [dumps numR (docToJson (process_image sqrt env p).1)] warn
    | _ =>
        Outcome.exited 1 [] (warn ++ [dumps numR (usageDoc α)])

/-! Concrete fixtures used by the witness theorems. -/

/-- A rational stand-in for the float square root (only claims at `ℝ` use
the actual square root). -/
def qSqrt : ℚ → ℚ := fun x => x

/-- A newline-free number renderer, standing for `float.__repr__` of `0.0`. -/
def qNum : ℚ → String := fun _ => "0.0"

/-- All libraries importable; inference raises an exception. -/
def envErr : PyEnv ℚ := ⟨true, true, true, fun _ p => (Except.error "boom", [p])⟩

/-- `transformers` missing, inference oracle irrelevant. -/
def envNoClip : PyEnv ℚ := ⟨true, true, false, fun _ p => (Except.error "unused", [p])⟩

/-- `transformers` missing, with a different inference oracle. -/
def envNoClip2 : PyEnv ℚ := ⟨true, true, false, fun _ _ => (Except.ok [1, 2], ["other"])⟩

/-- `torch` missing. -/
def envNoTorch : PyEnv ℚ := ⟨false, true, true, fun _ _ => (Except.error "unused", [])⟩

/-- C2: when the inference library is unavailable, `process_image` returns
exactly the fallback document: caption `"Image: <path>"` and an embedding of
512 zeros. -/
theorem C2_fallback_doc {α : Type} [Field α] (sqrt : α → α) (env : PyEnv α)
    (p : String) (hclip : env.hasTransformers = false) :
    (process_image sqrt env p).1 =
      ⟨"Image: " ++ p, List.replicate 512 (0 : α)⟩ ∧
    ((process_image sqrt env p).1.embedding).length = 512 ∧
    ∀ x ∈ (process_image sqrt env p).1.embedding, x = 0 := by
  have h : process_image sqrt env p =
      (⟨"Image: " ++ p, List.replicate 512 (0 : α)⟩, []) := by
    unfold process_image
    rw [hclip, if_pos rfl]
  rw [h]
  refine ⟨rfl, List.length_replicate 512 0, ?_⟩
  intro x hx
  exact List.eq_of_mem_replicate hx

theorem C2_fallback_doc_witness :
    (process_image qSqrt envNoClip "photo.png").1 =
      ⟨"Image: " ++ "photo.png", List.replicate 512 (0 : ℚ)⟩ ∧
    ((process_image qSqrt envNoClip "photo.png").1.embedding).length = 512 ∧
    ∀ x ∈ (process_image qSqrt envNoClip "photo.png").1.embedding, x = 0 :=
  C2_fallback_doc qSqrt envNoClip "photo.png" rfl

/-- C7: in the library-unavailable branch `process_image` performs no
file-system access at all (the accessed-path list is empty), and its result
does not depend on the inference oracle: any other environment in which the
library is likewise unavailable yields the identical result. -/
theorem C7_fallback_no_file_access {α : Type} [Field α] (sqrt : α → α)
    (env env2 : PyEnv α) (p : String)
    (hclip : env.hasTransformers = false) (hclip2 : env2.hasTransformers = false) :
    (process_image sqrt env p).2 = [] ∧
    process_image sqrt env p = process_image sqrt env2 p := by
  have h : process_image sqrt env p =
      (⟨"Image: " ++ p, List.replicate 512 (0 : α)⟩, []) := by
    unfold process_image
    rw [hclip, if_pos rfl]
  have h2 : process_image sqrt env2 p =
      (⟨"Image: " ++ p, List.replicate 512 (0 : α)⟩, []) := by
    unfold process_image
    rw [hclip2, if_pos rfl]
  rw [h, h2]
  exact ⟨rfl, rfl⟩

theorem C7_fallback_no_file_access_witness :
    (process_image qSqrt envNoClip "photo.png").2 = [] ∧
    process_image qSqrt envNoClip "photo.png" = process_image qSqrt envNoClip2 "photo.png" :=
  C7_fallback_no_file_access qSqrt envNoClip envNoClip2 "photo.png" rfl rfl

/-- C9: in every branch the dictionary returned by `process_image` has
exactly the two keys `caption` and `embedding`, the first bound to a string
and the second to an array of numbers. -/
theorem C9_doc_shape {α : Type} [Field α] (sqrt : α → α) (env : PyEnv α) (p : String) :
    ∃ c : String, ∃ xs : List α,
      docToJson (process_image sqrt env p).1 =
        ⟨[("caption", JAtom.str c), ("embedding", JAtom.numArr xs)]⟩ :=
  ⟨(process_image sqrt env p).1.caption, (process_image sqrt env p).1.embedding, rfl⟩

/-- C10: arguments beyond the first positional one are ignored: two
invocations with the same `argv[1]` produce the same outcome, whatever the
program name and the extra arguments are. -/
theorem C10_extra_args_ignored {α : Type} [Field α] (sqrt : α → α) (numR : α → String)
    (env : PyEnv α) (a0 b0 p : String) (r s : List String) :
    runScript sqrt numR env (a0 :: p :: r) = runScript sqrt numR env (b0 :: p :: s) := by
  cases h : moduleInit env with
  | error e => simp [runScript, h]
  | ok warn => simp [runScript, h]

/-- In an environment where all three modules are importable, the module
initialization succeeds with the warning lines it printed. -/
theorem moduleInit_ok {α : Type} (env : PyEnv α)
    (htorch : env.hasTorch = true) (hpil : env.hasPIL = true) :
    (env.hasTransformers = true ∧ moduleInit env = Except.ok []) ∨
    (env.hasTransformers = false ∧ moduleInit env = Except.ok [warningLine]) := by
  cases hc : env.hasTransformers
  · exact Or.inr ⟨rfl, by simp [moduleInit, htorch, hpil, hc]⟩
  · exact Or.inl ⟨rfl, by simp [moduleInit, htorch, hpil, hc]⟩

/-- A successful module initialization only ever reports no warning or
exactly the missing-transformers warning. -/
theorem moduleInit_warn {α : Type} (env : PyEnv α) (warn : List String)
    (h : moduleInit env = Except.ok warn) : warn = [] ∨ warn = [warningLine] := by
  unfold moduleInit at h
  split_ifs at h with h1 h2 h3 <;> simp_all

/-- C1: with the library available, an exception raised during loading or
inference is converted into the error-caption document with a 512-zero
embedding, and the process does not crash: it exits 0 printing that
document. -/
theorem C1_exception_converted {α : Type} [Field α] (sqrt : α → α) (numR : α → String)
    (env : PyEnv α) (a0 p : String) (rest : List String) (msg : String)
    (acc : List String)
    (htorch : env.hasTorch = true) (hpil : env.hasPIL = true)
    (hclip : env.hasTransformers = true)
    (herr : env.infer model_name p = (Except.error msg, acc)) :
    (process_image sqrt env p).1 =
      ⟨"Error processing image: " ++ msg, List.replicate 512 (0 : α)⟩ ∧
    runScript sqrt numR env (a0 :: p :: rest) =
      Outcome.exited 0
        [dumps numR
          (docToJson
            (⟨"Error processing image: " ++ msg, List.replicate 512 (0 : α)⟩ : Doc α))]
        [] := by
  have hdoc : process_image sqrt env p =
      (⟨"Error processing image: " ++ msg, List.replicate 512 (0 : α)⟩, acc) := by
    unfold process_image
    rw [hclip, herr]
    rfl
  have hmi : moduleInit env = Except.ok [] := by
    simp [moduleInit, htorch, hpil, hclip]
  constructor
  · rw [hdoc]
  · unfold runScript
    rw [hmi]
    show Outcome.exited 0 [dumps numR (docToJson (process_image sqrt env p).1)] [] = _
    rw [hdoc]

theorem C1_exception_converted_witness :
    (process_image qSqrt envErr "missing.png").1 =
      ⟨"Error processing image: " ++ "boom", List.replicate 512 (0 : ℚ)⟩ ∧
    runScript qSqrt qNum envErr ["clip2_process.py", "missing.png"] =
      Outcome.exited 0
        [dumps qNum
          (docToJson
            (⟨"Error processing image: " ++ "boom", List.replicate 512 (0 : ℚ)⟩ : Doc ℚ))]
        [] :=
  C1_exception_converted qSqrt qNum envErr "clip2_process.py" "missing.png" []
    "boom" ["missing.png"] rfl rfl rfl rfl

/-- C3: with no positional argument, the script exits with code 1, prints
nothing on stdout, and its stderr contains the dump of a JSON object whose
single key is `error`. -/
theorem C3_missing_arg {α : Type} [Field α] (sqrt : α → α) (numR : α → String)
    (env : PyEnv α) (argv : List String)
    (htorch : env.hasTorch = true) (hpil : env.hasPIL = true)
    (hlen : argv.length < 2) :
    ∃ serr : List String,
      runScript sqrt numR env argv = Outcome.exited 1 [] serr ∧
      dumps numR (usageDoc α) ∈ serr ∧
      (usageDoc α).fields =
        [("error", JAtom.str "Usage: clip2_process.py <image_path>")] := by
  rcases moduleInit_ok env htorch hpil with ⟨_, hmi⟩ | ⟨_, hmi⟩
  · refine ⟨[dumps numR (usageDoc α)], ?_, by simp, rfl⟩
    cases argv with
    | nil => unfold runScript; rw [hmi]; rfl
    | cons a t =>
      cases t with
      | nil => unfold runScript; rw [hmi]; rfl
      | cons b t2 => exact absurd hlen (by simp)
  · refine ⟨[warningLine, dumps numR (usageDoc α)], ?_, by simp, rfl⟩
    cases argv with
    | nil => unfold runScript; rw [hmi]; rfl
    | cons a t =>
      cases t with
      | nil => unfold runScript; rw [hmi]; rfl
      | cons b t2 => exact absurd hlen (by simp)

theorem C3_missing_arg_witness :
    ∃ serr : List String,
      runScript qSqrt qNum envErr ["clip2_process.py"] = Outcome.exited 1 [] serr ∧
      dumps qNum (usageDoc ℚ) ∈ serr ∧
      (usageDoc ℚ).fields =
        [("error", JAtom.str "Usage: clip2_process.py <image_path>")] :=
  C3_missing_arg qSqrt qNum envErr ["clip2_process.py"] rfl rfl (by decide)

/-- C6: with at least one positional argument (and the unconditional
imports succeeding), the script prints exactly one line on stdout — the
dump of the `process_image` result document — and exits 0; stderr holds at
most the diagnostic warning. -/
theorem C6_single_line_exit0 {α : Type} [Field α] (sqrt : α → α) (numR : α → String)
    (env : PyEnv α) (a0 p : String) (rest : List String)
    (htorch : env.hasTorch = true) (hpil : env.hasPIL = true) :
    ∃ serr : List String,
      runScript sqrt numR env (a0 :: p :: rest) =
        Outcome.exited 0 [dumps numR (docToJson (process_image sqrt env p).1)] serr ∧
      (serr = [] ∨ serr = [warningLine]) := by
  rcases moduleInit_ok env htorch hpil with ⟨_, hmi⟩ | ⟨_, hmi⟩
  · exact ⟨[], by unfold runScript; rw [hmi], Or.inl rfl⟩
  · exact ⟨[warningLine], by unfold runScript; rw [hmi], Or.inr rfl⟩

theorem C6_single_line_exit0_witness :
    ∃ serr : List String,
      runScript qSqrt qNum envNoClip ["clip2_process.py", "photo.png", "extra"] =
        Outcome.exited 0
          [dumps qNum (docToJson (process_image qSqrt envNoClip "photo.png").1)] serr ∧
      (serr = [] ∨ serr = [warningLine]) :=
  C6_single_line_exit0 qSqrt qNum envNoClip "clip2_process.py" "photo.png" ["extra"]
    rfl rfl

/-- C8: if `torch` or `PIL` is missing, the run dies with an unhandled
ImportError before any argument handling — nothing is printed on stdout (in
particular no fallback document), and the outcome is the same for every
argument vector. -/
theorem C8_unconditional_imports {α : Type} [Field α] (sqrt : α → α) (numR : α → String)
    (env : PyEnv α) (argv argv2 : List String)
    (h : env.hasTorch = false ∨ env.hasPIL = false) :
    ∃ msg : String,
      runScript sqrt numR env argv = Outcome.crashed msg [] [] ∧
      runScript sqrt numR env argv = runScript sqrt numR env argv2 := by
  have hmi : ∃ msg : String, moduleInit env = Except.error msg := by
    rcases h with h | h
    · exact ⟨"No module named torch", by simp [moduleInit, h]⟩
    · cases ht : env.hasTorch
      · exact ⟨"No module named torch", by simp [moduleInit, ht]⟩
      · exact ⟨"No module named PIL", by simp [moduleInit, ht, h]⟩
  obtain ⟨msg, hmi⟩ := hmi
  refine ⟨msg, ?_, ?_⟩
  · cases argv with
    | nil => unfold runScript; rw [hmi]
    | cons a t => cases t with
      | nil => unfold runScript; rw [hmi]
      | cons b t2 => unfold runScript; rw [hmi]
  · have hrun : ∀ av : List String, runScript sqrt numR env av = Outcome.crashed msg [] [] := by
      intro av
      cases av with
      | nil => unfold runScript; rw [hmi]
      | cons a t => cases t with
        | nil => unfold runScript; rw [hmi]
        | cons b t2 => unfold runScript; rw [hmi]
    rw [hrun argv, hrun argv2]

theorem C8_unconditional_imports_witness :
    ∃ msg : String,
      runScript qSqrt qNum envNoTorch ["clip2_process.py", "photo.png"] =
        Outcome.crashed msg [] [] ∧
      runScript qSqrt qNum envNoTorch ["clip2_process.py", "photo.png"] =
        runScript qSqrt qNum envNoTorch [] :=
  C8_unconditional_imports qSqrt qNum envNoTorch ["clip2_process.py", "photo.png"] []
    (Or.inl rfl)

/-- The sum of squares of a real vector is nonnegative. -/
theorem sumSq_nonneg (v : List ℝ) : 0 ≤ sumSq v := by
  unfold sumSq
  apply List.sum_nonneg
  intro x hx
  rcases List.mem_map.mp hx with ⟨y, _, rfl⟩
  exact mul_self_nonneg y

/-- Dividing a real vector by its Euclidean norm yields a vector whose sum
of squares is 1, whenever the vector is not identically zero. -/
theorem sumSq_normalizeVec (v : List ℝ) (hnz : sumSq v ≠ 0) :
    sumSq (normalizeVec Real.sqrt v) = 1 := by
  have hpos : 0 ≤ sumSq v := sumSq_nonneg v
  have hs : Real.sqrt (sumSq v) * Real.sqrt (sumSq v) = sumSq v :=
    Real.mul_self_sqrt hpos
  have hcomp :
      ((fun x => x * x) ∘ fun x => x / Real.sqrt (sumSq v)) =
        fun x : ℝ =>
          (x * x) * (Real.sqrt (sumSq v) * Real.sqrt (sumSq v))⁻¹ := by
    funext x
    simp only [Function.comp_apply]
    rw [div_eq_mul_inv, mul_inv]
    ring
  have h1 : sumSq (normalizeVec Real.sqrt v)
      = (v.map ((fun x => x * x) ∘ fun x => x / Real.sqrt (sumSq v))).sum := by
    show ((v.map fun x => x / Real.sqrt (sumSq v)).map fun x => x * x).sum = _
    rw [List.map_map]
  rw [h1, hcomp, List.sum_map_mul_right, hs]
  show sumSq v * (sumSq v)⁻¹ = 1
  exact mul_inv_cancel₀ hnz

/-- C4: with the library available and the image decodable, the result is
the caption `"Image from <path>"` with the feature vector divided by its
Euclidean norm: the embedding keeps the feature length 512 and has
Euclidean norm exactly 1 in the real model of floats. -/
theorem C4_success_normalized (env : PyEnv ℝ) (p : String)
    (v : List ℝ) (acc : List String)
    (hclip : env.hasTransformers = true)
    (hok : env.infer model_name p = (Except.ok v, acc))
    (hlen : v.length = 512) (hnz : sumSq v ≠ 0) :
    (process_image Real.sqrt env p).1 =
      ⟨"Image from " ++ p, normalizeVec Real.sqrt v⟩ ∧
    ((process_image Real.sqrt env p).1.embedding).length = 512 ∧
    sumSq ((process_image Real.sqrt env p).1.embedding) = 1 ∧
    Real.sqrt (sumSq ((process_image Real.sqrt env p).1.embedding)) = 1 := by
  have hdoc : process_image Real.sqrt env p =
      (⟨"Image from " ++ p, normalizeVec Real.sqrt v⟩, acc) := by
    unfold process_image
    rw [hclip, hok]
    rfl
  rw [hdoc]
  refine ⟨rfl, ?_, ?_, ?_⟩
  · show (normalizeVec Real.sqrt v).length = 512
    unfold normalizeVec
    rw [List.length_map]
    exact hlen
  · exact sumSq_normalizeVec v hnz
  · show Real.sqrt (sumSq (normalizeVec Real.sqrt v)) = 1
    rw [sumSq_normalizeVec v hnz]
    exact Real.sqrt_one

/-- A concrete raw feature vector: a one followed by 511 zeros. -/
def e512 : List ℝ := 1 :: List.replicate 511 0

/-- The concrete feature vector has 512 entries. -/
theorem e512_length : e512.length = 512 := by
  unfold e512
  rw [List.length_cons, List.length_replicate]

/-- The concrete feature vector has sum of squares 1. -/
theorem e512_sumSq : sumSq e512 = 1 := by
  unfold sumSq e512
  rw [List.map_cons, List.map_replicate, List.sum_cons, List.sum_replicate]
  norm_num

/-- All libraries importable over `ℝ`; inference succeeds with `e512`. -/
def envR : PyEnv ℝ := ⟨true, true, true, fun _ p => (Except.ok e512, [p])⟩

theorem C4_success_normalized_witness :
    (process_image Real.sqrt envR "photo.png").1 =
      ⟨"Image from " ++ "photo.png", normalizeVec Real.sqrt e512⟩ ∧
    ((process_image Real.sqrt envR "photo.png").1.embedding).length = 512 ∧
    sumSq ((process_image Real.sqrt envR "photo.png").1.embedding) = 1 ∧
    Real.sqrt (sumSq ((process_image Real.sqrt envR "photo.png").1.embedding)) = 1 :=
  C4_success_normalized envR "photo.png" e512 ["photo.png"] rfl rfl e512_length
    (by rw [e512_sumSq]; norm_num)

/-- Hexadecimal digits are never a newline. -/
theorem hexDigit_ne_nl (n : Nat) : hexDigit n ≠ Char.ofNat 10 := by
  have h : n % 16 < 16 := Nat.mod_lt _ (by norm_num)
  unfold hexDigit
  set k := n % 16 with hk
  interval_cases k <;> decide

/-- A `\uXXXX` escape contains no newline. -/
theorem nl_not_mem_uEsc (m : Nat) : '\n' ∉ ('\\' :: 'u' :: hex4 m) := by
  intro hm
  unfold hex4 at hm
  rcases List.mem_cons.mp hm with h | h
  · exact absurd h (by decide)
  rcases List.mem_cons.mp h with h | h
  · exact absurd h (by decide)
  rcases List.mem_cons.mp h with h | h
  · exact hexDigit_ne_nl _ h.symm
  rcases List.mem_cons.mp h with h | h
  · exact hexDigit_ne_nl _ h.symm
  rcases List.mem_cons.mp h with h | h
  · exact hexDigit_ne_nl _ h.symm
  rcases List.mem_cons.mp h with h | h
  · exact hexDigit_ne_nl _ h.symm
  · exact absurd h (List.not_mem_nil _)

/-- The `json.dumps` escape of any character contains no newline. -/
theorem nl_not_mem_escChar (c : Char) : '\n' ∉ escChar c := by
  unfold escChar
  split_ifs with h1 h2 h3 h4 h5 h6 h7 h8 h9
  · decide
  · decide
  · decide
  · decide
  · decide
  · decide
  · decide
  · intro hm
    rcases List.mem_singleton.mp hm with rfl
    exact absurd h8.1 (by decide)
  · exact nl_not_mem_uEsc _
  · intro hm
    rcases List.mem_append.mp hm with h | h
    · exact nl_not_mem_uEsc _ h
    · exact nl_not_mem_uEsc _ h

/-- The escaped body of a JSON string literal contains no newline. -/
theorem nl_not_mem_escapeList (l : List Char) : '\n' ∉ escapeList l := by
  induction l with
  | nil => simp [escapeList]
  | cons c cs ih =>
    intro hm
    unfold escapeList at hm
    rcases List.mem_append.mp hm with h | h
    · exact nl_not_mem_escChar c h
    · exact ih h

/-- A JSON string literal contains no newline, whatever the string holds. -/
theorem nl_not_mem_jstrL (s : String) : '\n' ∉ jstrL s := by
  intro hm
  unfold jstrL at hm
  rcases List.mem_cons.mp hm with h | h
  · exact absurd h (by decide)
  rcases List.mem_append.mp h with h | h
  · exact nl_not_mem_escapeList _ h
  · exact absurd (List.mem_singleton.mp h) (by decide)

/-- Joining newline-free chunks with a newline-free separator stays
newline-free. -/
theorem nl_not_mem_joinSep (sep : List Char) (hsep : '\n' ∉ sep) :
    ∀ parts : List (List Char), (∀ part ∈ parts, '\n' ∉ part) →
      '\n' ∉ joinSep sep parts
  | [], _ => by simp [joinSep]
  | [x], hp => by
    intro hm
    unfold joinSep at hm
    exact hp x (List.mem_singleton.mpr rfl) hm
  | x :: y :: t, hp => by
    intro hm
    unfold joinSep at hm
    rcases List.mem_append.mp hm with h | h
    · rcases List.mem_append.mp h with h2 | h2
      · exact hp x (List.mem_cons_self x _) h2
      · exact hsep h2
    · exact nl_not_mem_joinSep sep hsep (y :: t)
        (fun part hpart => hp part (List.mem_cons_of_mem x hpart)) h

/-- A rendered JSON value contains no newline, provided the number
renderer is newline-free. -/
theorem nl_not_mem_renderAtomL {α : Type} (numR : α → String)
    (hnum : ∀ x : α, '\n' ∉ (numR x).data) (a : JAtom α) :
    '\n' ∉ renderAtomL numR a := by
  cases a with
  | str s =>
    intro hm
    exact nl_not_mem_jstrL s hm
  | numArr xs =>
    intro hm
    unfold renderAtomL at hm
    rcases List.mem_cons.mp hm with h | h
    · exact absurd h (by decide)
    rcases List.mem_append.mp h with h | h
    · refine nl_not_mem_joinSep [',', ' '] (by decide) _ ?_ h
      intro part hpart
      rcases List.mem_map.mp hpart with ⟨x, _, rfl⟩
      exact hnum x
    · exact absurd (List.mem_singleton.mp h) (by decide)

/-- The whole dumped object document contains no newline: the model of the
fact that `json.dumps` escapes every control character inside strings. -/
theorem nl_not_mem_dumpsL {α : Type} (numR : α → String)
    (hnum : ∀ x : α, '\n' ∉ (numR x).data) (d : JDoc α) :
    '\n' ∉ dumpsL numR d := by
  intro hm
  unfold dumpsL at hm
  rcases List.mem_cons.mp hm with h | h
  · exact absurd h (by decide)
  rcases List.mem_append.mp h with h | h
  · refine nl_not_mem_joinSep [',', ' '] (by decide) _ ?_ h
    intro part hpart
    rcases List.mem_map.mp hpart with ⟨kv, _, rfl⟩
    intro hm2
    rcases List.mem_append.mp hm2 with h2 | h2
    · rcases List.mem_append.mp h2 with h3 | h3
      · exact nl_not_mem_jstrL _ h3
      · exact absurd h3 (by decide)
    · exact nl_not_mem_renderAtomL numR hnum _ h2
  · exact absurd (List.mem_singleton.mp h) (by decide)

/-- The dumped document, as a string, spans a single line. -/
theorem dumps_single_line {α : Type} (numR : α → String)
    (hnum : ∀ x : α, '\n' ∉ (numR x).data) (d : JDoc α) :
    '\n' ∉ (dumps numR d).data :=
  nl_not_mem_dumpsL numR hnum d

/-- C5: every result the process prints is the dump of a JSON object and
contains no newline: this holds for the stdout line in every branch, and
for every non-diagnostic stderr line of a usage-error run. -/
theorem C5_valid_single_line_json {α : Type} [Field α] (sqrt : α → α)
    (numR : α → String) (env : PyEnv α) (argv : List String)
    (hnum : ∀ x : α, '\n' ∉ (numR x).data) :
    (∀ line ∈ (runScript sqrt numR env argv).stdoutLines,
      (∃ d : JDoc α, line = dumps numR d) ∧ '\n' ∉ line.data) ∧
    (∀ sout serr, runScript sqrt numR env argv = Outcome.exited 1 sout serr →
      ∀ line ∈ serr, line ≠ warningLine →
        (∃ d : JDoc α, line = dumps numR d) ∧ '\n' ∉ line.data) := by
  cases hmi : moduleInit env with
  | error e =>
    have hrun : runScript sqrt numR env argv = Outcome.crashed e [] [] := by
      cases argv with
      | nil => unfold runScript; rw [hmi]
      | cons a t => cases t with
        | nil => unfold runScript; rw [hmi]
        | cons b t2 => unfold runScript; rw [hmi]
    rw [hrun]
    constructor
    · intro line hline
      exact absurd hline (List.not_mem_nil _)
    · intro sout serr heq
      exact absurd heq (by simp)
  | ok warn =>
    cases argv with
    | cons a t =>
      cases t with
      | cons p t2 =>
        have hrun : runScript sqrt numR env (a :: p :: t2) =
            Outcome.exited 0
              [dumps numR (docToJson (process_image sqrt env p).1)] warn := by
          unfold runScript; rw [hmi]
        rw [hrun]
        constructor
        · intro line hline
          rcases List.mem_singleton.mp hline with rfl
          exact ⟨⟨_, rfl⟩, dumps_single_line numR hnum _⟩
        · intro sout serr heq
          exact absurd heq (by simp)
      | nil =>
        have hrun : runScript sqrt numR env [a] =
            Outcome.exited 1 [] (warn ++ [dumps numR (usageDoc α)]) := by
          unfold runScript; rw [hmi]
        rw [hrun]
        constructor
        · intro line hline
          exact absurd hline (List.not_mem_nil _)
        · intro sout serr heq line hline hne
          have hserr : serr = warn ++ [dumps numR (usageDoc α)] := by
            cases heq
            rfl
          rw [hserr] at hline
          rcases List.mem_append.mp hline with h | h
          · rcases moduleInit_warn env warn hmi with rfl | rfl
            · exact absurd h (List.not_mem_nil _)
            · exact absurd (List.mem_singleton.mp h) hne
          · rcases List.mem_singleton.mp h with rfl
            exact ⟨⟨_, rfl⟩, dumps_single_line numR hnum _⟩
    | nil =>
      have hrun : runScript sqrt numR env [] =
          Outcome.exited 1 [] (warn ++ [dumps numR (usageDoc α)]) := by
        unfold runScript; rw [hmi]
      rw [hrun]
      constructor
      · intro line hline
        exact absurd hline (List.not_mem_nil _)
      · intro sout serr heq line hline hne
        have hserr : serr = warn ++ [dumps numR (usageDoc α)] := by
          cases heq
          rfl
        rw [hserr] at hline
        rcases List.mem_append.mp hline with h | h
        · rcases moduleInit_warn env warn hmi with rfl | rfl
          · exact absurd h (List.not_mem_nil _)
          · exact absurd (List.mem_singleton.mp h) hne
        · rcases List.mem_singleton.mp h with rfl
          exact ⟨⟨_, rfl⟩, dumps_single_line numR hnum _⟩

/-- The fixture number renderer is newline-free. -/
theorem qNum_no_nl : ∀ x : ℚ, '\n' ∉ (qNum x).data := by
  intro x
  show '\n' ∉ ("0.0" : String).data
  decide

theorem C5_valid_single_line_json_witness :
    (∀ line ∈ (runScript qSqrt qNum envNoClip ["clip2_process.py", "photo.png"]).stdoutLines,
      (∃ d : JDoc ℚ, line = dumps qNum d) ∧ '\n' ∉ line.data) ∧
    (∀ sout serr,
      runScript qSqrt qNum envNoClip ["clip2_process.py", "photo.png"] =
        Outcome.exited 1 sout serr →
      ∀ line ∈ serr, line ≠ warningLine →
        (∃ d : JDoc ℚ, line = dumps qNum d) ∧ '\n' ∉ line.data) :=
  C5_valid_single_line_json qSqrt qNum envNoClip ["clip2_process.py", "photo.png"]
    qNum_no_nl

end Clip2
